import Mathlib

/-!
Verification of the core transformation logic of the proposal-generator
application (src/main.py): the color resolver `hex_to_rgb`, the font-fit
rule `adjust_font_size`, the objective-table rendering of `save_as_pdf`,
and the export / reset state transition (`save_as_pdf`, `reset_application`).

The embedding works over `List Char` / `String` for the string-processing
code, `Int` for the parsed channel values (Python's `int(s, 16)` can yield
negative values when the group carries a minus sign), and `Int` for the
rendered text widths returned by the document library's string-width
measurement (an external collaborator; it is modelled as an arbitrary
per-character width function in an arbitrarily fine integral unit -- the
library's own character metrics are integers in thousandths of the size
unit -- nonnegative where a claim needs that).
-/

/- ## Color resolver (src/main.py lines 6-12 and 299-324) -/

/-- Value of one hexadecimal digit as understood by Python `int(s, 16)`:
`0`-`9`, `a`-`f`, `A`-`F`; `none` for every other character. -/
def pyHexDigit? (c : Char) : Option Nat :=
  if '0' ≤ c ∧ c ≤ '9' then some (c.toNat - '0'.toNat)
  else if 'a' ≤ c ∧ c ≤ 'f' then some (c.toNat - 'a'.toNat + 10)
  else if 'A' ≤ c ∧ c ≤ 'F' then some (c.toNat - 'A'.toNat + 10)
  else none

/-- The digit value of a hex digit character (0 for non-digits). -/
def hexVal (c : Char) : Nat := (pyHexDigit? c).getD 0

/-- The 22 characters that are hexadecimal digits. -/
def hexDigitChars : List Char := "0123456789abcdefABCDEF".data

/-- Characters of the Latin-1 range that Python's `int(s, base)` strips as
surrounding whitespace (CPython treats `\x09`-`\x0d`, `\x1c`-`\x1f`, space,
`\x85` and `\xa0` as whitespace; whitespace characters outside Latin-1 are
not modelled, no claim depends on them). -/
def isPySpace (c : Char) : Bool :=
  c = ' ' || c = '\x09' || c = '\x0a' || c = '\x0b' || c = '\x0c' || c = '\x0d' ||
  c = '\x1c' || c = '\x1d' || c = '\x1e' || c = '\x1f' || c = '\x85' || c = '\xa0'

/-- Python `int(s, 16)` on a string of exactly two characters, as used for
each slice `color[i:i+2]` at src/main.py line 320.  Besides two hex digits,
Python also accepts a leading sign (`+d` / `-d`) and a leading or trailing
whitespace character around a single digit; everything else fails. -/
def pyIntHex2 (c1 c2 : Char) : Option Int :=
  match pyHexDigit? c1, pyHexDigit? c2 with
  | some a, some b => some (Int.ofNat (16 * a + b))
  | _, _ =>
    if c1 = '+' then (pyHexDigit? c2).map Int.ofNat
    else if c1 = '-' then (pyHexDigit? c2).map (fun v => -(Int.ofNat v))
    else if isPySpace c1 then (pyHexDigit? c2).map Int.ofNat
    else if isPySpace c2 then (pyHexDigit? c1).map Int.ofNat
    else none

/-- `tuple(int(color[i:i+2], 16) for i in range(0, 6, 2))` on a 6-character
string (src/main.py line 320); `none` when any of the three 2-character
groups fails to parse (the generator raises on its first bad group, and the
caller converts any such failure into the same error message, so the order
of evaluation is immaterial). -/
def parse6 (l : List Char) : Option (Int × Int × Int) :=
  match l with
  | [c1, c2, c3, c4, c5, c6] =>
    match pyIntHex2 c1 c2, pyIntHex2 c3 c4, pyIntHex2 c5 c6 with
    | some r, some g, some b => some (r, g, b)
    | _, _, _ => none
  | _ => none

/-- Length check, 3-digit expansion and group parsing of `hex_to_rgb`
(src/main.py lines 314-322), applied after name resolution and marker
stripping. -/
def hexBody (l : List Char) : Except String (Int × Int × Int) :=
  if l.length = 3 ∨ l.length = 6 then
    let l6 := if l.length = 3 then (l.map (fun c => [c, c])).flatten else l
    match parse6 l6 with
    | some rgb => Except.ok rgb
    | none => Except.error "Invalid hex color value"
  else Except.error "Invalid hex color format"

/-- `color.lower()` character by character (the inputs that matter here are
ASCII, where Python's `str.lower` agrees with `Char.toLower`). -/
def toLowerStr (l : List Char) : List Char := l.map Char.toLower

/-- `NAMED_COLORS.get(s, -)` for the five-entry dictionary at
src/main.py lines 6-12, written as the corresponding decision chain. -/
def NAMED_COLORS_get (s : List Char) : Option (List Char) :=
  if s = ['w', 'h', 'i', 't', 'e'] then some ['#', 'F', 'F', 'F', 'F', 'F', 'F']
  else if s = ['b', 'l', 'a', 'c', 'k'] then some ['#', '0', '0', '0', '0', '0', '0']
  else if s = ['r', 'e', 'd'] then some ['#', 'F', 'F', '0', '0', '0', '0']
  else if s = ['g', 'r', 'e', 'e', 'n'] then some ['#', '0', '0', 'F', 'F', '0', '0']
  else if s = ['b', 'l', 'u', 'e'] then some ['#', '0', '0', '0', '0', 'F', 'F']
  else none

/-- `NAMED_COLORS.get(color.lower(), color)` (src/main.py line 310). -/
def resolveName (l : List Char) : List Char :=
  (NAMED_COLORS_get (toLowerStr l)).getD l

/-- Name resolution followed by marker stripping (src/main.py lines
310-312): `if color.startswith('#'): color = color.lstrip('#')`.  Python's
`lstrip` removes every leading `#`, not just one. -/
def resolvedChars (l : List Char) : List Char :=
  let r := resolveName l
  if r.head? = some '#' then r.dropWhile (fun c => c == '#') else r

/-- `hex_to_rgb` (src/main.py lines 299-324) on a string argument.  The
`isinstance` check and its non-string branch are outside the embedding:
every input here is a string. -/
def hex_to_rgb (color : String) : Except String (Int × Int × Int) :=
  hexBody (resolvedChars color.data)

/- ## Font-fit layout rule (src/main.py lines 360-365) -/

/-- `adjust_font_size(pdf, text, max_width, initial_font_size)`
(src/main.py lines 360-365).  `width sz` stands for
`pdf.get_string_width(text)` with the pdf's current font set to size `sz`;
at both call sites the current font size equals the requested starting size
when the loop first tests the width, and each iteration re-sets the font to
the decremented size before testing again, so the loop invariantly measures
the width at the current candidate size.  The recursion is structural in
the candidate size, exactly mirroring the `while` loop that decrements
`font_size` by 1 while the text overflows and `font_size > 6`. -/
def adjust_font_size (width : Nat → Int) (max_width : Int) : Nat → Nat
  | 0 => 0
  | n + 1 =>
    if max_width < width (n + 1) ∧ 6 < n + 1 then
      adjust_font_size width max_width n
    else n + 1

/-- Width of a rendered string as the sum of its per-character widths at
the given font size; this is how the document library measures
`get_string_width` (character metric times size scaling), abstracted over
the concrete per-character metric `charW`. -/
def strWidth (charW : Char → Nat → Int) (text : String) (size : Nat) : Int :=
  (text.data.map (fun c => charW c size)).sum

/- ## Objective table rendering and application state
     (src/main.py lines 326-428) -/

/-- One problem/goal pair, the content of one objective table
(src/main.py lines 245-263, `self.tables`). -/
structure ObjectiveEntry where
  problem : String
  goal : String
deriving DecidableEq

/-- The two value cells of one rendered row-pair: the text put in the cell
and the font size chosen for it (src/main.py lines 371-398). -/
structure RenderedRow where
  problemText : String
  problemFontSize : Nat
  goalText : String
  goalFontSize : Nat
deriving DecidableEq

/-- `cell_width_text = 150` (src/main.py line 368), the fixed width of the
value cells. -/
def cell_width_text : Int := 150

/-- Rendering of one objective entry inside the loop of `save_as_pdf`
(src/main.py lines 371-398): an empty problem/goal string is replaced by
the literal `"N/A"`, and the font size for each value cell is chosen by
`adjust_font_size` starting from size 12 against `cell_width_text`. -/
def renderRow (charW : Char → Nat → Int) (e : ObjectiveEntry) : RenderedRow :=
  let ptext := if e.problem = "" then "N/A" else e.problem
  let gtext := if e.goal = "" then "N/A" else e.goal
  { problemText := ptext
    problemFontSize := adjust_font_size (strWidth charW ptext) cell_width_text 12
    goalText := gtext
    goalFontSize := adjust_font_size (strWidth charW gtext) cell_width_text 12 }

/-- The mutable state of `ProposalGeneratorApp` that the export and reset
paths read and write (src/main.py lines 126-141: the four color settings,
the alignment, the about text and the list of objective tables). -/
structure AppState where
  about_text : String
  about_bg_color : String
  about_font_color : String
  goal_font_color : String
  goal_row_color : String
  text_alignment : String
  tables : List ObjectiveEntry
deriving DecidableEq

/-- `reset_application` (src/main.py lines 405-428): clears the about
text, restores the four color settings to their defaults, clears the
entries of the first table and drops the remaining tables.  The alignment
attribute `text_alignment` is not touched anywhere in the function. -/
def reset_application (st : AppState) : AppState :=
  { about_text := ""
    about_bg_color := "black"
    about_font_color := "white"
    goal_font_color := "black"
    goal_row_color := "#ffffff"
    text_alignment := st.text_alignment
    tables :=
      match st.tables with
      | [] => []
      | _ :: _ => [⟨"", ""⟩] }

/-- Result of one invocation of the export action: the state afterwards,
the path the document was written to (`none` when the user cancelled the
save dialog, in which case nothing is written), and the rendered
objective rows of the assembled document. -/
structure ExportResult where
  newState : AppState
  written : Option String
  doc : List RenderedRow
deriving DecidableEq

/-- The per-entry part of `save_as_pdf`'s loop (src/main.py lines
371-398): for each table the goal-row fill and font colors are resolved
with `hex_to_rgb` (raising aborts the whole export), and the row-pair is
rendered.  With no tables the loop body never runs, so the goal colors are
then never resolved. -/
def renderRows (charW : Char → Nat → Int) (st : AppState) :
    List ObjectiveEntry → Except String (List RenderedRow)
  | [] => Except.ok []
  | e :: rest =>
    match hex_to_rgb st.goal_row_color with
    | Except.error msg => Except.error msg
    | Except.ok _ =>
      match hex_to_rgb st.goal_font_color with
      | Except.error msg => Except.error msg
      | Except.ok _ =>
        match renderRows charW st rest with
        | Except.error msg => Except.error msg
        | Except.ok rows => Except.ok (renderRow charW e :: rows)

/-- `save_as_pdf` (src/main.py lines 326-403).  The about colors are
resolved first (lines 339-340, a failure propagates and aborts the export
before any file dialog), then the objective rows are assembled, then the
save dialog is shown (line 400, modelled by the `file_path` argument,
`none` for a cancelled dialog, which Python sees as a falsy path).  Only
when a destination was chosen is the document written and
`reset_application` invoked (lines 401-403). -/
def save_as_pdf (charW : Char → Nat → Int) (st : AppState)
    (file_path : Option String) : Except String ExportResult :=
  match hex_to_rgb st.about_bg_color with
  | Except.error msg => Except.error msg
  | Except.ok _ =>
    match hex_to_rgb st.about_font_color with
    | Except.error msg => Except.error msg
    | Except.ok _ =>
      match renderRows charW st st.tables with
      | Except.error msg => Except.error msg
      | Except.ok rows =>
        match file_path with
        | some p => Except.ok ⟨reset_application st, some p, rows⟩
        | none => Except.ok ⟨st, none, rows⟩

/- ## Concrete instances used by witnesses and counterexamples -/

/-- A constant per-character width metric: every character is 1 unit wide
at every size. -/
def unitW : Char → Nat → Int := fun _ _ => 1

/-- A concrete application state just before an export: center alignment,
three filled objective entries, default colors. -/
def st0 : AppState :=
  ⟨"About text", "black", "white", "black", "#ffffff", "C",
    [⟨"p1", "g1"⟩, ⟨"p2", "g2"⟩, ⟨"p3", "g3"⟩]⟩

/-- The export result produced from `st0` when the user picks the
destination `out.pdf` (computed by `save_as_pdf`). -/
def r0 : ExportResult :=
  ⟨⟨"", "black", "white", "black", "#ffffff", "C", [⟨"", ""⟩]⟩,
    some "out.pdf",
    [⟨"p1", 12, "g1", 12⟩, ⟨"p2", 12, "g2", 12⟩, ⟨"p3", 12, "g3", 12⟩]⟩

/-- A freshly initialised application state: one empty objective entry,
default colors, left alignment (src/main.py lines 126-144). -/
def st1 : AppState :=
  ⟨"", "black", "white", "black", "#ffffff", "L", [⟨"", ""⟩]⟩

/-- The export result produced from `st1` when the user cancels the save
dialog (computed by `save_as_pdf`). -/
def r1 : ExportResult := ⟨st1, none, [⟨"N/A", 12, "N/A", 12⟩]⟩

/- ## Helper lemmas about the color resolver -/

/-- Every hexadecimal digit parses to its value, lowercases to something
other than `r` (so no all-hex string can collide with a color name), and
is not the `#` marker. -/
lemma hexChar_facts : ∀ c ∈ hexDigitChars,
    pyHexDigit? c = some (hexVal c) ∧ Char.toLower c ≠ 'r' ∧ c ≠ '#' := by decide

lemma pyIntHex2_of_hex (c1 c2 : Char) (h1 : c1 ∈ hexDigitChars)
    (h2 : c2 ∈ hexDigitChars) :
    pyIntHex2 c1 c2 = some (Int.ofNat (16 * hexVal c1 + hexVal c2)) := by
  have e1 := (hexChar_facts c1 h1).1
  have e2 := (hexChar_facts c2 h2).1
  simp [pyIntHex2, e1, e2]

lemma hexBody_six (a b c d e f : Char)
    (ha : a ∈ hexDigitChars) (hb : b ∈ hexDigitChars) (hc : c ∈ hexDigitChars)
    (hd : d ∈ hexDigitChars) (he : e ∈ hexDigitChars) (hf : f ∈ hexDigitChars) :
    hexBody [a, b, c, d, e, f] =
      Except.ok (Int.ofNat (16 * hexVal a + hexVal b),
        Int.ofNat (16 * hexVal c + hexVal d),
        Int.ofNat (16 * hexVal e + hexVal f)) := by
  simp [hexBody, parse6, pyIntHex2_of_hex a b ha hb, pyIntHex2_of_hex c d hc hd,
    pyIntHex2_of_hex e f he hf]

lemma hexBody_three (a b c : Char) (ha : a ∈ hexDigitChars)
    (hb : b ∈ hexDigitChars) (hc : c ∈ hexDigitChars) :
    hexBody [a, b, c] =
      Except.ok (Int.ofNat (16 * hexVal a + hexVal a),
        Int.ofNat (16 * hexVal b + hexVal b),
        Int.ofNat (16 * hexVal c + hexVal c)) := by
  simp [hexBody, parse6, pyIntHex2_of_hex a a ha ha, pyIntHex2_of_hex b b hb hb,
    pyIntHex2_of_hex c c hc hc]

/-- The 3-digit branch of `hexBody` parses exactly the duplicated 6-digit
form, for arbitrary characters. -/
lemma hexBody_expand (a b c : Char) :
    hexBody [a, b, c] = hexBody [a, a, b, b, c, c] := by
  simp [hexBody]

/-- An all-hexadecimal string of length 3 or 6 never matches a named
color. -/
lemma NAMED_COLORS_get_none_of_allHex (l : List Char)
    (hlen : l.length = 3 ∨ l.length = 6)
    (hall : ∀ c ∈ l, c ∈ hexDigitChars) :
    NAMED_COLORS_get (toLowerStr l) = none := by
  have hlength : (toLowerStr l).length = l.length := List.length_map l Char.toLower
  have hne : ∀ k : List Char, k.length ≠ l.length → toLowerStr l ≠ k :=
    fun k hk h => hk (by rw [← h, hlength])
  have hw := hne ['w', 'h', 'i', 't', 'e'] (by rcases hlen with h | h <;> simp [h])
  have hb := hne ['b', 'l', 'a', 'c', 'k'] (by rcases hlen with h | h <;> simp [h])
  have hg := hne ['g', 'r', 'e', 'e', 'n'] (by rcases hlen with h | h <;> simp [h])
  have hu := hne ['b', 'l', 'u', 'e'] (by rcases hlen with h | h <;> simp [h])
  have hr : toLowerStr l ≠ ['r', 'e', 'd'] := by
    rcases hlen with h3 | h6
    · obtain ⟨x, y, z, rfl⟩ := List.length_eq_three.mp h3
      intro h
      simp [toLowerStr] at h
      exact (hexChar_facts x (hall x (by simp))).2.1 h.1
    · exact hne ['r', 'e', 'd'] (by simp [h6])
  simp [NAMED_COLORS_get, hw, hb, hr, hg, hu]

/-- Name resolution and marker stripping leave an all-hexadecimal string
of length 3 or 6 unchanged. -/
lemma resolvedChars_allHex (l : List Char) (hlen : l.length = 3 ∨ l.length = 6)
    (hall : ∀ c ∈ l, c ∈ hexDigitChars) : resolvedChars l = l := by
  have hres : resolveName l = l := by
    simp [resolveName, NAMED_COLORS_get_none_of_allHex l hlen hall]
  obtain ⟨x, rest, rfl⟩ : ∃ x rest, l = x :: rest := by
    cases l with
    | nil => simp at hlen
    | cons x rest => exact ⟨x, rest, rfl⟩
  have hx : x ≠ '#' := (hexChar_facts x (hall x (by simp))).2.2
  simp [resolvedChars, hres, hx]

/-- No string that starts with the `#` marker is a named color. -/
lemma NAMED_COLORS_get_hash (xs : List Char) :
    NAMED_COLORS_get ('#' :: xs) = none := by
  simp [NAMED_COLORS_get]

/-- Stripping the marker drops every leading `#`, however many. -/
lemma dropWhile_hash (k : Nat) (l : List Char) :
    List.dropWhile (fun c => c == '#') (List.replicate k '#' ++ l) =
      List.dropWhile (fun c => c == '#') l := by
  induction k with
  | zero => simp
  | succ k ih => simp [List.replicate_succ, List.dropWhile, ih]

/- ## Claims about the color resolver -/

/-- Claim C1: for every string whose named-color resolution and marker
stripping yields exactly six hexadecimal digits `rrggbb`, the color
resolver returns the 3-tuple `(int(rr,16), int(gg,16), int(bb,16))`; in
particular `"#abc"` resolves identically to `"#aabbcc"`, giving
`(170, 187, 204)`. -/
theorem hex_to_rgb_six_hex (s : String) (a b c d e f : Char)
    (hres : resolvedChars s.data = [a, b, c, d, e, f])
    (ha : a ∈ hexDigitChars) (hb : b ∈ hexDigitChars) (hc : c ∈ hexDigitChars)
    (hd : d ∈ hexDigitChars) (he : e ∈ hexDigitChars) (hf : f ∈ hexDigitChars) :
    (hex_to_rgb s = Except.ok (Int.ofNat (16 * hexVal a + hexVal b),
        Int.ofNat (16 * hexVal c + hexVal d), Int.ofNat (16 * hexVal e + hexVal f)))
      ∧ hex_to_rgb "#abc" = hex_to_rgb "#aabbcc"
      ∧ hex_to_rgb "#abc" = Except.ok (170, 187, 204) := by
  refine ⟨?_, by rfl, by rfl⟩
  unfold hex_to_rgb
  rw [hres]
  exact hexBody_six a b c d e f ha hb hc hd he hf

theorem hex_to_rgb_six_hex_witness :
    hex_to_rgb "#aabbcc" = Except.ok (170, 187, 204) :=
  (hex_to_rgb_six_hex "#aabbcc" 'a' 'a' 'b' 'b' 'c' 'c' (by rfl) (by decide)
    (by decide) (by decide) (by decide) (by decide) (by decide)).1

/-- Claim C2 (code bug): the resolver does raise for lengths other than 3
and 6 and for groups such as `"xy"` of `"xyz123"`, but a would-be hex group
is parsed by Python's `int(-, 16)`, which also accepts a sign or a
whitespace character next to a single hex digit: `"+1+2+3"` contains the
non-hex character `+` in every group yet resolves to `(1, 2, 3)` instead
of raising InvalidColor. -/
theorem hex_to_rgb_plus_group_accepted :
    hex_to_rgb "+1+2+3" = Except.ok (1, 2, 3)
      ∧ hex_to_rgb "xyz123" = Except.error "Invalid hex color value"
      ∧ hex_to_rgb "a" = Except.error "Invalid hex color format"
      ∧ hex_to_rgb "ab" = Except.error "Invalid hex color format"
      ∧ hex_to_rgb "abcd" = Except.error "Invalid hex color format"
      ∧ hex_to_rgb "abcde" = Except.error "Invalid hex color format"
      ∧ hex_to_rgb "abcdeff" = Except.error "Invalid hex color format" :=
  ⟨by rfl, by rfl, by rfl, by rfl, by rfl, by rfl, by rfl⟩

/-- Claim C3 (code bug): a successful result always has exactly three
components, but a component need not lie in `[0, 255]`: the input
`"-1-2-3"` resolves successfully to `(-1, -2, -3)`, whose channels are
negative, because Python's `int(-, 16)` accepts `-d` groups. -/
theorem hex_to_rgb_negative_channels :
    hex_to_rgb "-1-2-3" = Except.ok (-1, -2, -3) ∧ ¬ (0 : Int) ≤ -1 :=
  ⟨by rfl, by decide⟩

/-- Claim C7: for every string of exactly 3 hexadecimal digits `abc`, the
resolver's result equals its result on the expanded 6-digit form `aabbcc`
(each digit duplicated before parsing). -/
theorem hex_to_rgb_three_digit_expand (a b c : Char)
    (ha : a ∈ hexDigitChars) (hb : b ∈ hexDigitChars) (hc : c ∈ hexDigitChars) :
    hex_to_rgb ⟨[a, b, c]⟩ = hex_to_rgb ⟨[a, a, b, b, c, c]⟩ := by
  have hall3 : ∀ x ∈ [a, b, c], x ∈ hexDigitChars := by
    intro x hx
    simp at hx
    rcases hx with rfl | rfl | rfl <;> assumption
  have hall6 : ∀ x ∈ [a, a, b, b, c, c], x ∈ hexDigitChars := by
    intro x hx
    simp at hx
    rcases hx with rfl | rfl | rfl <;> assumption
  have h3 := resolvedChars_allHex [a, b, c] (Or.inl rfl) hall3
  have h6 := resolvedChars_allHex [a, a, b, b, c, c] (Or.inr rfl) hall6
  show hexBody (resolvedChars [a, b, c]) = hexBody (resolvedChars [a, a, b, b, c, c])
  rw [h3, h6]
  exact hexBody_expand a b c

theorem hex_to_rgb_three_digit_expand_witness :
    hex_to_rgb ⟨['a', 'b', 'c']⟩ = hex_to_rgb ⟨['a', 'a', 'b', 'b', 'c', 'c']⟩ :=
  hex_to_rgb_three_digit_expand 'a' 'b' 'c' (by decide) (by decide) (by decide)

/-- Claim C10: the resolver strips every leading `#` marker, not just one:
for every string of 3 or 6 hex digits and every count of at least one
leading `#`, the prefixed input resolves to the same RGB triple as the
bare digits, which themselves resolve successfully. -/
theorem hex_to_rgb_strip_all_hashes (l : List Char) (n : Nat) (hn : 1 ≤ n)
    (hlen : l.length = 3 ∨ l.length = 6)
    (hall : ∀ c ∈ l, c ∈ hexDigitChars) :
    hex_to_rgb ⟨List.replicate n '#' ++ l⟩ = hex_to_rgb ⟨l⟩
      ∧ ∃ rgb, hex_to_rgb ⟨l⟩ = Except.ok rgb := by
  obtain ⟨m, rfl⟩ : ∃ m, n = m + 1 := ⟨n - 1, by omega⟩
  have hresl := resolvedChars_allHex l hlen hall
  have hsharp : Char.toLower '#' = '#' := rfl
  have hlower : toLowerStr (List.replicate (m + 1) '#' ++ l) =
      '#' :: (List.replicate m '#' ++ toLowerStr l) := by
    simp [toLowerStr, List.replicate_succ, hsharp]
  have hname : NAMED_COLORS_get (toLowerStr (List.replicate (m + 1) '#' ++ l)) = none := by
    rw [hlower]
    exact NAMED_COLORS_get_hash _
  have hresolve : resolveName (List.replicate (m + 1) '#' ++ l) =
      List.replicate (m + 1) '#' ++ l := by
    simp [resolveName, hname]
  obtain ⟨x, rest, rfl⟩ : ∃ x rest, l = x :: rest := by
    cases l with
    | nil => simp at hlen
    | cons x rest => exact ⟨x, rest, rfl⟩
  have hx : x ≠ '#' := (hexChar_facts x (hall x (by simp))).2.2
  have hxbeq : (x == '#') = false := by simp [hx]
  have hstrip : resolvedChars (List.replicate (m + 1) '#' ++ x :: rest) = x :: rest := by
    simp only [resolvedChars, hresolve]
    rw [if_pos (by simp [List.replicate_succ])]
    rw [dropWhile_hash]
    simp [List.dropWhile, hxbeq]
  have hsucc : ∃ rgb, hexBody (x :: rest) = Except.ok rgb := by
    rcases hlen with h3 | h6
    · obtain ⟨p, q, r, hl⟩ := List.length_eq_three.mp h3
      rw [hl] at hall ⊢
      exact ⟨_, hexBody_three p q r (hall p (by simp)) (hall q (by simp))
        (hall r (by simp))⟩
    · have hp : rest.length = 5 := by simpa using h6
      obtain ⟨c2, t2, h2⟩ : ∃ c2 t2, rest = c2 :: t2 := by
        cases rest with
        | nil => simp at hp
        | cons c2 t2 => exact ⟨c2, t2, rfl⟩
      obtain ⟨c3, t3, h3'⟩ : ∃ c3 t3, t2 = c3 :: t3 := by
        cases t2 with
        | nil => rw [h2] at hp; simp at hp
        | cons c3 t3 => exact ⟨c3, t3, rfl⟩
      obtain ⟨c4, t4, h4⟩ : ∃ c4 t4, t3 = c4 :: t4 := by
        cases t3 with
        | nil => rw [h2, h3'] at hp; simp at hp
        | cons c4 t4 => exact ⟨c4, t4, rfl⟩
      obtain ⟨c5, t5, h5⟩ : ∃ c5 t5, t4 = c5 :: t5 := by
        cases t4 with
        | nil => rw [h2, h3', h4] at hp; simp at hp
        | cons c5 t5 => exact ⟨c5, t5, rfl⟩
      obtain ⟨c6, t6, h6'⟩ : ∃ c6 t6, t5 = c6 :: t6 := by
        cases t5 with
        | nil => rw [h2, h3', h4, h5] at hp; simp at hp
        | cons c6 t6 => exact ⟨c6, t6, rfl⟩
      have ht6 : t6 = [] := by
        rw [h2, h3', h4, h5, h6'] at hp
        simpa using hp
      have hlist : x :: rest = [x, c2, c3, c4, c5, c6] := by
        rw [h2, h3', h4, h5, h6', ht6]
      rw [hlist] at hall ⊢
      exact ⟨_, hexBody_six x c2 c3 c4 c5 c6 (hall x (by simp)) (hall c2 (by simp))
        (hall c3 (by simp)) (hall c4 (by simp)) (hall c5 (by simp))
        (hall c6 (by simp))⟩
  obtain ⟨rgb, hrgb⟩ := hsucc
  refine ⟨?_, ⟨rgb, ?_⟩⟩
  · show hexBody (resolvedChars (List.replicate (m + 1) '#' ++ x :: rest)) =
      hexBody (resolvedChars (x :: rest))
    rw [hstrip, hresl]
  · show hexBody (resolvedChars (x :: rest)) = Except.ok rgb
    rw [hresl]
    exact hrgb

theorem hex_to_rgb_strip_all_hashes_witness :
    hex_to_rgb ⟨List.replicate 2 '#' ++ "abc".data⟩ = hex_to_rgb ⟨"abc".data⟩
      ∧ ∃ rgb, hex_to_rgb ⟨"abc".data⟩ = Except.ok rgb :=
  hex_to_rgb_strip_all_hashes "abc".data 2 (by decide) (Or.inl (by decide)) (by decide)

/- ## Helper lemmas about the font-fit rule -/

/-- The chosen size never exceeds the requested starting size. -/
lemma adjust_font_size_le (w : Nat → Int) (m : Int) :
    ∀ f, adjust_font_size w m f ≤ f := by
  intro f
  induction f with
  | zero => simp [adjust_font_size]
  | succ n ih =>
    simp only [adjust_font_size]
    split
    · exact le_trans ih (by omega)
    · exact le_refl _

/-- Starting at or above the floor, the chosen size never drops below the
floor of 6. -/
lemma adjust_font_size_ge (w : Nat → Int) (m : Int) :
    ∀ f, 6 ≤ f → 6 ≤ adjust_font_size w m f := by
  intro f
  induction f with
  | zero => intro h; exact absurd h (by omega)
  | succ n ih =>
    intro h
    simp only [adjust_font_size]
    split
    · next hc => exact ih (by omega)
    · exact h

/-- If every candidate size from the floor up to the start overflows, the
loop bottoms out at exactly the floor of 6. -/
lemma adjust_font_size_floor (w : Nat → Int) (m : Int) :
    ∀ f, 6 ≤ f → (∀ s, s ≤ f → m < w s) → adjust_font_size w m f = 6 := by
  intro f
  induction f with
  | zero => intro h _; exact absurd h (by omega)
  | succ n ih =>
    intro h hov
    simp only [adjust_font_size]
    by_cases h6 : 6 < n + 1
    · rw [if_pos ⟨hov (n + 1) (le_refl _), h6⟩]
      exact ih (by omega) (fun s hs => hov s (by omega))
    · rw [if_neg (fun hc => h6 hc.2)]
      omega

/-- Below or at the floor the loop never runs: the starting size comes
back unchanged. -/
lemma adjust_font_size_low (w : Nat → Int) (m : Int) (f : Nat) (h : f ≤ 6) :
    adjust_font_size w m f = f := by
  cases f with
  | zero => simp [adjust_font_size]
  | succ n =>
    simp only [adjust_font_size]
    rw [if_neg (fun hc => by omega)]

/-- A text that already fits at the starting size keeps the starting
size. -/
lemma adjust_font_size_fits (w : Nat → Int) (m : Int) (f : Nat) (h : w f ≤ m) :
    adjust_font_size w m f = f := by
  cases f with
  | zero => simp [adjust_font_size]
  | succ n =>
    simp only [adjust_font_size]
    rw [if_neg (fun hc => absurd hc.1 (not_lt.mpr h))]

/-- A pointwise wider text never gets a larger chosen size. -/
lemma adjust_font_size_mono (w1 w2 : Nat → Int) (m : Int)
    (hw : ∀ s, w1 s ≤ w2 s) :
    ∀ f, adjust_font_size w2 m f ≤ adjust_font_size w1 m f := by
  intro f
  induction f with
  | zero => simp [adjust_font_size]
  | succ n ih =>
    by_cases h1 : m < w1 (n + 1) ∧ 6 < n + 1
    · have h2 : m < w2 (n + 1) ∧ 6 < n + 1 := ⟨lt_of_lt_of_le h1.1 (hw _), h1.2⟩
      simp only [adjust_font_size]
      rw [if_pos h1, if_pos h2]
      exact ih
    · have hr : adjust_font_size w1 m (n + 1) = n + 1 := by
        simp only [adjust_font_size]
        rw [if_neg h1]
      rw [hr]
      exact adjust_font_size_le w2 m (n + 1)

/-- A superstring is at least as wide as its substring at every size, for
a nonnegative character metric. -/
lemma strWidth_le_of_superstring (charW : Char → Nat → Int)
    (hpos : ∀ c sz, 0 ≤ charW c sz) (s t : String) (u v : List Char)
    (huv : u ++ s.data ++ v = t.data) (sz : Nat) :
    strWidth charW s sz ≤ strWidth charW t sz := by
  unfold strWidth
  rw [← huv]
  simp only [List.map_append, List.sum_append]
  have hu : 0 ≤ (u.map (fun c => charW c sz)).sum := by
    apply List.sum_nonneg
    intro x hx
    simp only [List.mem_map] at hx
    obtain ⟨c, _, rfl⟩ := hx
    exact hpos c sz
  have hv : 0 ≤ (v.map (fun c => charW c sz)).sum := by
    apply List.sum_nonneg
    intro x hx
    simp only [List.mem_map] at hx
    obtain ⟨c, _, rfl⟩ := hx
    exact hpos c sz
  omega

/- ## Claims about the font-fit rule and the table renderer -/

/-- Claim C5 counterexample: with a starting size of 3 (below the floor)
and a text that overflows the width limit 0 at every size, the rule
returns 3, which is below the floor of 6, refuting the claim as stated
for arbitrary starting sizes. -/
theorem adjust_font_size_floor_cex :
    adjust_font_size (fun _ => (1 : Int)) 0 3 = 3 ∧ ¬ 6 ≤ adjust_font_size (fun _ => (1 : Int)) 0 3 :=
  ⟨by rfl, by decide⟩

/-- Claim C5 (amended): the chosen size never exceeds the requested
starting size; when the starting size is at least the floor of 6 the
chosen size never drops below 6, and if every candidate size up to the
starting size still overflows the maximum width, the floor size 6 is
returned (best effort, no further shrinking); a starting size at or below
6, however, is returned unchanged, so for starting sizes below 6 the
result is below the floor. -/
theorem adjust_font_size_bounds (w : Nat → Int) (m : Int) (f : Nat) :
    adjust_font_size w m f ≤ f
      ∧ (6 ≤ f → 6 ≤ adjust_font_size w m f)
      ∧ (6 ≤ f → (∀ s, s ≤ f → m < w s) → adjust_font_size w m f = 6)
      ∧ (f ≤ 6 → adjust_font_size w m f = f) :=
  ⟨adjust_font_size_le w m f, adjust_font_size_ge w m f,
    adjust_font_size_floor w m f, adjust_font_size_low w m f⟩

theorem adjust_font_size_bounds_witness :
    adjust_font_size (fun _ => (1 : Int)) 0 6 ≤ 6
      ∧ 6 ≤ adjust_font_size (fun _ => (1 : Int)) 0 6
      ∧ adjust_font_size (fun _ => (1 : Int)) 0 6 = 6 :=
  ⟨(adjust_font_size_bounds (fun _ => 1) 0 6).1,
    (adjust_font_size_bounds (fun _ => 1) 0 6).2.1 (by decide),
    (adjust_font_size_bounds (fun _ => 1) 0 6).2.2.1 (by decide)
      (fun s _ => by decide)⟩

/-- Claim C6: the font-fit rule is monotonic: for a nonnegative character
metric, a strict superstring (the shorter string occurs inside the longer
one, and the two differ) at the same maximum width and the same starting
size never yields a larger chosen font size than the shorter string. -/
theorem adjust_font_size_superstring_mono (charW : Char → Nat → Int)
    (hpos : ∀ c sz, 0 ≤ charW c sz) (s t : String)
    (hsuper : ∃ u v, u ++ s.data ++ v = t.data) (_hne : s ≠ t)
    (m : Int) (f : Nat) :
    adjust_font_size (strWidth charW t) m f ≤ adjust_font_size (strWidth charW s) m f := by
  obtain ⟨u, v, huv⟩ := hsuper
  exact adjust_font_size_mono (strWidth charW s) (strWidth charW t) m
    (fun sz => strWidth_le_of_superstring charW hpos s t u v huv sz) f

theorem adjust_font_size_superstring_mono_witness :
    adjust_font_size (strWidth unitW "ab") 0 12 ≤
      adjust_font_size (strWidth unitW "a") 0 12 :=
  adjust_font_size_superstring_mono unitW (fun _ _ => zero_le_one) "a" "ab"
    ⟨[], ['b'], by rfl⟩ (by decide) 0 12

/-- Claim C8: in the objective table renderer, an entry with empty problem
(or goal) text gets the literal `"N/A"` in its value cell, and a non-empty
value text whose rendered width at the starting size 12 fits within the
fixed value-cell width keeps the starting size 12. -/
theorem renderRow_na_and_fontfit (charW : Char → Nat → Int) (e : ObjectiveEntry) :
    (e.problem = "" → (renderRow charW e).problemText = "N/A")
      ∧ (e.goal = "" → (renderRow charW e).goalText = "N/A")
      ∧ (e.problem ≠ "" → strWidth charW e.problem 12 ≤ cell_width_text →
          (renderRow charW e).problemFontSize = 12)
      ∧ (e.goal ≠ "" → strWidth charW e.goal 12 ≤ cell_width_text →
          (renderRow charW e).goalFontSize = 12) := by
  refine ⟨?_, ?_, ?_, ?_⟩
  · intro h
    simp [renderRow, h]
  · intro h
    simp [renderRow, h]
  · intro h hw
    simp only [renderRow, if_neg h]
    exact adjust_font_size_fits _ _ _ hw
  · intro h hw
    simp only [renderRow, if_neg h]
    exact adjust_font_size_fits _ _ _ hw

theorem renderRow_na_and_fontfit_witness :
    (renderRow unitW ⟨"", "g"⟩).problemText = "N/A"
      ∧ (renderRow unitW ⟨"", "g"⟩).goalFontSize = 12 :=
  ⟨(renderRow_na_and_fontfit unitW ⟨"", "g"⟩).1 (by rfl),
    (renderRow_na_and_fontfit unitW ⟨"", "g"⟩).2.2.2 (by decide) (by decide)⟩

/- ## Claims about the export and reset paths -/

/-- Claim C4 counterexample: exporting `st0` (alignment `"C"`, three
entries) to a chosen destination succeeds, yet the alignment of the
resulting state is still `"C"`, not the default `"L"`:
`reset_application` never touches `text_alignment`, so the claim as stated
is false. -/
theorem save_as_pdf_alignment_cex :
    save_as_pdf unitW st0 (some "out.pdf") = Except.ok r0
      ∧ r0.newState.text_alignment = "C"
      ∧ "C" ≠ "L" :=
  ⟨by rfl, by rfl, by decide⟩

/-- Claim C4 (amended): after every successful export to a chosen
destination, starting from a nonempty entry collection (as it always is in
the running application), the collection contains exactly one cleared
entry, the about text is cleared, and all four color settings are back to
their documented defaults; the text alignment, however, is not reset and
keeps its last-set value. -/
theorem save_as_pdf_reset_amended (charW : Char → Nat → Int) (st : AppState)
    (p : String) (r : ExportResult) (htab : st.tables ≠ [])
    (h : save_as_pdf charW st (some p) = Except.ok r) :
    r.newState.tables = [⟨"", ""⟩]
      ∧ r.newState.about_bg_color = "black"
      ∧ r.newState.about_font_color = "white"
      ∧ r.newState.goal_row_color = "#ffffff"
      ∧ r.newState.goal_font_color = "black"
      ∧ r.newState.about_text = ""
      ∧ r.newState.text_alignment = st.text_alignment
      ∧ r.written = some p := by
  unfold save_as_pdf at h
  split at h
  · exact Except.noConfusion h
  · split at h
    · exact Except.noConfusion h
    · split at h
      · exact Except.noConfusion h
      · cases h
        cases hts : st.tables with
        | nil => exact absurd hts htab
        | cons e rest => simp [reset_application, hts]

theorem save_as_pdf_reset_amended_witness :
    r0.newState.tables = [⟨"", ""⟩]
      ∧ r0.newState.about_bg_color = "black"
      ∧ r0.newState.about_font_color = "white"
      ∧ r0.newState.goal_row_color = "#ffffff"
      ∧ r0.newState.goal_font_color = "black"
      ∧ r0.newState.about_text = ""
      ∧ r0.newState.text_alignment = st0.text_alignment
      ∧ r0.written = some "out.pdf" :=
  save_as_pdf_reset_amended unitW st0 "out.pdf" r0 (by decide) (by rfl)

/-- Claim C9: when the user cancels the save dialog, the export is not an
error: whenever assembly succeeded, no file is written (the assembled
document is discarded) and the application state, style settings and
objective entries included, is left completely unmodified. -/
theorem save_as_pdf_cancel_unmodified (charW : Char → Nat → Int)
    (st : AppState) (r : ExportResult)
    (h : save_as_pdf charW st none = Except.ok r) :
    r.newState = st ∧ r.written = none := by
  unfold save_as_pdf at h
  split at h
  · exact Except.noConfusion h
  · split at h
    · exact Except.noConfusion h
    · split at h
      · exact Except.noConfusion h
      · cases h
        exact ⟨rfl, rfl⟩

theorem save_as_pdf_cancel_unmodified_witness :
    r1.newState = st1 ∧ r1.written = none :=
  save_as_pdf_cancel_unmodified unitW st1 r1 (by rfl)
